import Mathlib

/-!
Verification of `syllabus/core/reinit_task_wrapper.py` (class `ReinitTaskWrapper`).

Shallow embedding conventions:
* Environment objects are identified by `Nat` ids, so that "same object
  instance" is equality of ids.  Their behaviour (`reset`, `step`) is an
  oracle: a function from the env id to the returned values, passed as a
  section variable to the operations that delegate to it.
* The Python dict `task_envs` is an association list `List (Option τ × Nat)`
  with dict-style lookup and assignment; the key type is `Option τ` because
  Python `None` is a legal task key for a direct `change_task(None)` call.
* A Python `raise` leaves the object as it was, so fallible operations
  return `ProxyState × Except PyExn α`: the state component is the state of
  the object after the call, whether or not an exception escaped.
* The factory `env_fn` is impure in Python (it may return a distinct object
  on every call and may raise).  It is modelled as a function of the task
  key and of the index of the call (how many factory calls happened before),
  returning `Except PyExn Nat`.  The ghost field `fnCallLog` records the key
  of every factory invocation, so that "the factory is invoked at most once
  for task T" is a statement about the log.
-/

/-- Python exceptions that can cross this code: the `RuntimeError` raised by
the mid-episode guard, a `KeyError` from dict subscription, and arbitrary
exceptions raised by the externally supplied factory. -/
inductive PyExn where
  | runtimeError (msg : String)
  | keyError (msg : String)
  | other (tag : String)
  deriving DecidableEq, Repr

/-- Python dict lookup `d[k]` as an `Option` (`none` when the key is absent). -/
def dictLookup {τ : Type} [DecidableEq τ] : List (τ × Nat) → τ → Option Nat
  | [], _ => none
  | (k, v) :: rest, q => if q = k then some v else dictLookup rest q

/-- Python dict assignment `d[k] = v`: overwrite the binding when the key is
present, append it otherwise. -/
def dictInsert {τ : Type} [DecidableEq τ] : List (τ × Nat) → τ → Nat → List (τ × Nat)
  | [], k, v => [(k, v)]
  | (k, w) :: rest, q, v => if q = k then (q, v) :: rest else (k, w) :: dictInsert rest q v

/-- Python dict assignment to an info mapping, `info[k] = v`. -/
def infoSet {V : Type} (info : String → Option V) (k : String) (v : V) :
    String → Option V :=
  fun q => if q = k then some v else info q

/-- State of a `ReinitTaskWrapper` object.

Fields mirror the attributes set in `__init__` and mutated by the methods:
`env` (the active environment reference, from `gym.Wrapper`), `env_fn`,
`task_envs`, `task_space`, `done`.  `fnCallLog` is ghost instrumentation
recording every invocation of the factory. -/
structure ProxyState (τ TS : Type) where
  env : Nat
  env_fn : Option τ → Nat → Except PyExn Nat
  task_envs : List (Option τ × Nat)
  task_space : Option TS
  done : Bool
  fnCallLog : List (Option τ)

namespace ReinitTaskWrapper

variable {τ TS : Type} [DecidableEq τ]

/-- `ReinitTaskWrapper.__init__(env, env_fn, task_space)`: store the wrapped
environment and factory, start with an empty cache, and set `done = True`. -/
def init (env : Nat) (env_fn : Option τ → Nat → Except PyExn Nat)
    (task_space : Option TS) : ProxyState τ TS :=
  { env := env
    env_fn := env_fn
    task_envs := []
    task_space := task_space
    done := true
    fnCallLog := [] }

/-- `ReinitTaskWrapper.change_task(new_task)`:

```python
if not self.done:
    raise RuntimeError("Cannot change task mid-episode.")
if new_task not in self.task_envs:
    self.task_envs[new_task] = self.env_fn(new_task)
self.env = self.task_envs[new_task]
```
-/
def change_task (s : ProxyState τ TS) (new_task : Option τ) :
    ProxyState τ TS × Except PyExn Unit :=
  if !s.done then
    (s, Except.error (PyExn.runtimeError "Cannot change task mid-episode."))
  else
    let filled : ProxyState τ TS × Option PyExn :=
      if (dictLookup s.task_envs new_task).isNone then
        match s.env_fn new_task s.fnCallLog.length with
        | Except.error e => (s, some e)
        | Except.ok fresh =>
            ({ s with
                task_envs := dictInsert s.task_envs new_task fresh
                fnCallLog := s.fnCallLog ++ [new_task] }, none)
      else (s, none)
    match filled with
    | (s1, some e) => (s1, Except.error e)
    | (s1, none) =>
        match dictLookup s1.task_envs new_task with
        | some e => ({ s1 with env := e }, Except.ok ())
        | none => (s1, Except.error (PyExn.keyError "new_task"))

variable {Obs Act R V Kw : Type}

/-- `ReinitTaskWrapper.reset(new_task=None, **kwargs)`:

```python
if new_task is not None:
    self.change_task(new_task)
self.done = False
return self.observation(self.env.reset(**kwargs))
```

`envReset` is the behaviour oracle for the underlying environments and
`observation` is the observation transform inherited from the task-wrapper
base class (identity unless overridden). -/
def reset (observation : Obs → Obs) (envReset : Nat → Kw → Obs)
    (s : ProxyState τ TS) (new_task : Option τ) (kwargs : Kw) :
    ProxyState τ TS × Except PyExn Obs :=
  match new_task with
  | some _ =>
      match change_task s new_task with
      | (s1, Except.error e) => (s1, Except.error e)
      | (s1, Except.ok ()) =>
          let s2 := { s1 with done := false }
          (s2, Except.ok (observation (envReset s2.env kwargs)))
  | none =>
      let s2 := { s with done := false }
      (s2, Except.ok (observation (envReset s2.env kwargs)))

/-- `ReinitTaskWrapper.step(action)`:

```python
obs, rew, done, info = self.env.step(action)
self.done = done
info["task_completion"] = self._task_completion(obs, rew, done, info)
return self.observation(obs), rew, done, info
```

`envStep` is the behaviour oracle for the underlying environments and
`taskCompletion` is the `_task_completion` hook of the base adapter. -/
def step (observation : Obs → Obs)
    (envStep : Nat → Act → Obs × R × Bool × (String → Option V))
    (taskCompletion : Obs → R → Bool → (String → Option V) → V)
    (s : ProxyState τ TS) (action : Act) :
    ProxyState τ TS × (Obs × R × Bool × (String → Option V)) :=
  match envStep s.env action with
  | (obs, rew, done, info) =>
      let s1 := { s with done := done }
      let info1 := infoSet info "task_completion" (taskCompletion obs rew done info)
      (s1, (observation obs, rew, done, info1))

end ReinitTaskWrapper

/-- The active-environment invariant of the spec: the active environment is
either an instance stored in the task cache or the instance supplied at
construction. -/
def activeOk {τ TS : Type} [DecidableEq τ] (e0 : Nat) (s : ProxyState τ TS) : Prop :=
  s.env = e0 ∨ ∃ k, dictLookup s.task_envs k = some s.env

/-- States of a `ReinitTaskWrapper` reachable from construction with wrapped
environment `e0`, factory `fn` and task space `ts`, by any sequence of
`change_task`, `reset` and `step` calls (with arbitrary underlying
environment behaviour and hooks), keeping the state an operation leaves
behind whether it returned normally or raised. -/
inductive Reachable {τ TS : Type} [DecidableEq τ] (e0 : Nat)
    (fn : Option τ → Nat → Except PyExn Nat) (ts : Option TS) :
    ProxyState τ TS → Prop where
  | init : Reachable e0 fn ts (ReinitTaskWrapper.init e0 fn ts)
  | change_task (s : ProxyState τ TS) (k : Option τ) :
      Reachable e0 fn ts s →
      Reachable e0 fn ts (ReinitTaskWrapper.change_task s k).1
  | reset {Obs Kw : Type} (observation : Obs → Obs) (envReset : Nat → Kw → Obs)
      (s : ProxyState τ TS) (nt : Option τ) (kw : Kw) :
      Reachable e0 fn ts s →
      Reachable e0 fn ts (ReinitTaskWrapper.reset observation envReset s nt kw).1
  | step {Obs Act R V : Type} (observation : Obs → Obs)
      (envStep : Nat → Act → Obs × R × Bool × (String → Option V))
      (tc : Obs → R → Bool → (String → Option V) → V)
      (s : ProxyState τ TS) (a : Act) :
      Reachable e0 fn ts s →
      Reachable e0 fn ts (ReinitTaskWrapper.step observation envStep tc s a).1

/-- A concrete factory for concrete runs: the returned id is derived from the
call index, so every call yields a distinct instance. -/
def wFn : Option ℤ → Nat → Except PyExn Nat :=
  fun _ i => Except.ok (100 + i)

/-- A concrete factory that always raises. -/
def wFnBad : Option ℤ → Nat → Except PyExn Nat :=
  fun _ _ => Except.error (PyExn.other "boom")

/-- A freshly constructed proxy over environment 0 with factory `wFn`. -/
def wInit : ProxyState ℤ Unit :=
  ReinitTaskWrapper.init 0 wFn none

/-- A concrete mid-episode proxy state (`done = False`). -/
def wMid : ProxyState ℤ Unit :=
  { env := 0
    env_fn := wFn
    task_envs := [(some 3, 7)]
    task_space := none
    done := false
    fnCallLog := [some 3] }

/-- A freshly constructed proxy whose factory always raises. -/
def wBad : ProxyState ℤ Unit :=
  ReinitTaskWrapper.init 0 wFnBad none

/-- The state `change_task(4)` leaves behind when called on `wInit`. -/
def wAfter4 : ProxyState ℤ Unit :=
  (ReinitTaskWrapper.change_task wInit (some 4)).1

/-- A concrete, non-identity observation transform. -/
def wObs : ℤ → ℤ := fun o => o + 1

/-- Concrete underlying reset behaviour: the observation encodes the env id
and the keyword argument. -/
def wEnvReset : Nat → ℤ → ℤ := fun e k => (e : ℤ) * 10 + k

/-- Concrete underlying step behaviour ending the episode (`done = True`). -/
def wEnvStep : Nat → ℤ → ℤ × ℤ × Bool × (String → Option ℤ) :=
  fun e a => ((e : ℤ) + a, 2, true, fun _ => none)

/-- Concrete underlying step behaviour keeping the episode alive
(`done = False`). -/
def wEnvStepLive : Nat → ℤ → ℤ × ℤ × Bool × (String → Option ℤ) :=
  fun e a => ((e : ℤ) + a, 3, false, fun _ => none)

/-- A concrete `_task_completion` hook. -/
def wTC : ℤ → ℤ → Bool → (String → Option ℤ) → ℤ :=
  fun o r d _ => o + r + (if d then 1 else 0)

section Lemmas

variable {τ TS : Type} [DecidableEq τ]

/-- Dict assignment followed by lookup behaves like a pointwise update. -/
theorem dictLookup_dictInsert (d : List (τ × Nat)) (k q : τ) (v : Nat) :
    dictLookup (dictInsert d k v) q = if q = k then some v else dictLookup d q := by
  induction d with
  | nil => simp [dictInsert, dictLookup]
  | cons p rest ih =>
      obtain ⟨k1, v1⟩ := p
      by_cases hk : k = k1
      · subst hk
        by_cases hq : q = k <;> simp [dictInsert, dictLookup, hq]
      · by_cases hq : q = k
        · subst hq
          simp [dictInsert, dictLookup, hk, Ne.symm hk, ih]
        · by_cases hq1 : q = k1 <;>
            simp [dictInsert, dictLookup, hk, Ne.symm hk, hq, hq1, ih]

/-- Dict assignment grows the dict by at most one entry. -/
theorem dictInsert_length (d : List (τ × Nat)) (k : τ) (v : Nat) :
    (dictInsert d k v).length ≤ d.length + 1 := by
  induction d with
  | nil => simp [dictInsert]
  | cons p rest ih =>
      obtain ⟨k1, v1⟩ := p
      by_cases hk : k = k1
      · simp [dictInsert, hk]
      · simp only [dictInsert, if_neg hk, List.length_cons]
        omega

/-- `change_task` on a cached task activates the cached instance and changes
nothing else. -/
theorem change_task_cache_hit (s : ProxyState τ TS) (k : Option τ) (v : Nat)
    (hdone : s.done = true) (hv : dictLookup s.task_envs k = some v) :
    ReinitTaskWrapper.change_task s k = ({ s with env := v }, Except.ok ()) := by
  simp [ReinitTaskWrapper.change_task, hdone, hv]

/-- `change_task` on an uncached task with a succeeding factory caches the
fresh instance and activates it. -/
theorem change_task_cache_miss (s : ProxyState τ TS) (k : Option τ) (e : Nat)
    (hdone : s.done = true) (hmiss : dictLookup s.task_envs k = none)
    (hfac : s.env_fn k s.fnCallLog.length = Except.ok e) :
    ReinitTaskWrapper.change_task s k =
      ({ s with
          task_envs := dictInsert s.task_envs k e
          fnCallLog := s.fnCallLog ++ [k]
          env := e }, Except.ok ()) := by
  simp [ReinitTaskWrapper.change_task, hdone, hmiss, hfac, dictLookup_dictInsert]

/-- `change_task` during an episode raises and leaves the state untouched. -/
theorem change_task_not_done (s : ProxyState τ TS) (k : Option τ)
    (h : s.done = false) :
    ReinitTaskWrapper.change_task s k =
      (s, Except.error (PyExn.runtimeError "Cannot change task mid-episode.")) := by
  simp [ReinitTaskWrapper.change_task, h]

/-- A factory exception escapes `change_task` and leaves the state
untouched. -/
theorem change_task_factory_err (s : ProxyState τ TS) (k : Option τ) (e : PyExn)
    (hdone : s.done = true) (hmiss : dictLookup s.task_envs k = none)
    (hfac : s.env_fn k s.fnCallLog.length = Except.error e) :
    ReinitTaskWrapper.change_task s k = (s, Except.error e) := by
  simp [ReinitTaskWrapper.change_task, hdone, hmiss, hfac]

/-- After a successful `change_task`, the requested task is cached and the
cached instance is the active one; the factory log for that task grew by at
most one entry. -/
theorem change_task_ok_lookup (s s1 : ProxyState τ TS) (k : Option τ)
    (h : ReinitTaskWrapper.change_task s k = (s1, Except.ok ())) :
    dictLookup s1.task_envs k = some s1.env ∧
    s1.fnCallLog.count k ≤ s.fnCallLog.count k + 1 := by
  cases hd : s.done with
  | false =>
      rw [change_task_not_done s k hd] at h
      exact absurd (congrArg Prod.snd h) (by simp)
  | true =>
      cases hv : dictLookup s.task_envs k with
      | some v =>
          rw [change_task_cache_hit s k v hd hv] at h
          have hs1 : s1 = { s with env := v } := (congrArg Prod.fst h).symm
          subst hs1
          exact ⟨hv, Nat.le_succ_of_le (Nat.le_refl _)⟩
      | none =>
          cases hf : s.env_fn k s.fnCallLog.length with
          | error e =>
              rw [change_task_factory_err s k e hd hv hf] at h
              exact absurd (congrArg Prod.snd h) (by simp)
          | ok e =>
              rw [change_task_cache_miss s k e hd hv hf] at h
              have hs1 : s1 =
                  { s with
                      task_envs := dictInsert s.task_envs k e
                      fnCallLog := s.fnCallLog ++ [k]
                      env := e } := (congrArg Prod.fst h).symm
              subst hs1
              constructor
              · simp [dictLookup_dictInsert]
              · simp [List.count_append]

/-- `change_task` preserves the active-environment invariant. -/
theorem activeOk_change_task (e0 : Nat) (s : ProxyState τ TS) (k : Option τ)
    (h : activeOk e0 s) :
    activeOk e0 (ReinitTaskWrapper.change_task s k).1 := by
  cases hd : s.done with
  | false => rw [change_task_not_done s k hd]; exact h
  | true =>
      cases hv : dictLookup s.task_envs k with
      | some v =>
          rw [change_task_cache_hit s k v hd hv]
          exact Or.inr ⟨k, hv⟩
      | none =>
          cases hf : s.env_fn k s.fnCallLog.length with
          | error e => rw [change_task_factory_err s k e hd hv hf]; exact h
          | ok e =>
              rw [change_task_cache_miss s k e hd hv hf]
              refine Or.inr ⟨k, ?_⟩
              simp [activeOk, dictLookup_dictInsert]

end Lemmas

section Claims

variable {τ TS : Type} [DecidableEq τ]

/-- C1: whenever the episode-in-progress flag indicates an active episode
(`done = False`), `change_task` fails with the mid-episode `RuntimeError`,
and the state it leaves behind is exactly the state before the call — active
environment reference and task cache included — because the guard is checked
before any cache lookup or factory invocation. -/
theorem ReinitTaskWrapper.change_task_mid_episode_fails
    (s : ProxyState τ TS) (new_task : Option τ) (h : s.done = false) :
    ReinitTaskWrapper.change_task s new_task =
      (s, Except.error (PyExn.runtimeError "Cannot change task mid-episode.")) := by
  simp [ReinitTaskWrapper.change_task, h]

/-- C1 witness: the mid-episode failure at a concrete state. -/
theorem ReinitTaskWrapper.change_task_mid_episode_fails_witness :
    ReinitTaskWrapper.change_task wMid (some 5) =
      (wMid, Except.error (PyExn.runtimeError "Cannot change task mid-episode.")) :=
  ReinitTaskWrapper.change_task_mid_episode_fails wMid (some 5) rfl

/-- C2: a second request for a task `T` that a first successful `change_task`
put in the cache — made from any legal episode-ended state whose cache and
factory-call log are the ones the first request left behind — is served from
the cache: it succeeds, the resulting active environment is the very instance
the first request produced, and across both requests the factory was invoked
at most once for `T`. -/
theorem ReinitTaskWrapper.change_task_cached_second_request
    (s s1 smid : ProxyState τ TS) (T : Option τ)
    (h1 : ReinitTaskWrapper.change_task s T = (s1, Except.ok ()))
    (hcache : smid.task_envs = s1.task_envs)
    (hlog : smid.fnCallLog = s1.fnCallLog)
    (hdone2 : smid.done = true) :
    ReinitTaskWrapper.change_task smid T =
      ({ smid with env := s1.env }, Except.ok ()) ∧
    (ReinitTaskWrapper.change_task smid T).1.fnCallLog.count T ≤
      s.fnCallLog.count T + 1 := by
  obtain ⟨hlk, hcnt⟩ := change_task_ok_lookup s s1 T h1
  have hhit := change_task_cache_hit smid T s1.env hdone2 (hcache ▸ hlk)
  refine ⟨hhit, ?_⟩
  rw [hhit]
  simpa [hlog] using hcnt

/-- C2 witness: requesting task 4 twice on a concrete proxy. -/
theorem ReinitTaskWrapper.change_task_cached_second_request_witness :
    ReinitTaskWrapper.change_task wAfter4 (some 4) =
      ({ wAfter4 with env := wAfter4.env }, Except.ok ()) ∧
    (ReinitTaskWrapper.change_task wAfter4 (some 4)).1.fnCallLog.count (some 4) ≤
      wInit.fnCallLog.count (some 4) + 1 :=
  ReinitTaskWrapper.change_task_cached_second_request wInit wAfter4 wAfter4
    (some 4) rfl rfl rfl rfl

/-- C7: for a task not yet cached, an exception raised by the factory during
`change_task` propagates unchanged to the caller, and the state is exactly as
before the call: no cache entry is gained and the active environment
reference is unchanged. -/
theorem ReinitTaskWrapper.factory_error_propagates
    (s : ProxyState τ TS) (k : Option τ) (ex : PyExn)
    (hdone : s.done = true) (hmiss : dictLookup s.task_envs k = none)
    (hfac : s.env_fn k s.fnCallLog.length = Except.error ex) :
    ReinitTaskWrapper.change_task s k = (s, Except.error ex) := by
  simp [ReinitTaskWrapper.change_task, hdone, hmiss, hfac]

/-- C7 witness: a raising factory at a concrete fresh proxy. -/
theorem ReinitTaskWrapper.factory_error_propagates_witness :
    ReinitTaskWrapper.change_task wBad (some 2) =
      (wBad, Except.error (PyExn.other "boom")) :=
  ReinitTaskWrapper.factory_error_propagates wBad (some 2) (PyExn.other "boom")
    rfl rfl rfl

/-- C10: the task id `None` is special only in `reset`: `reset` without a new
task performs no task change at all (the state change is exactly
`done := False`), whereas a direct `change_task(None)` in the episode-ended
state with `None` uncached treats `None` as an ordinary key — it invokes the
factory with `None`, caches the result under `None` and activates that
result, rather than restoring the instance supplied at construction. -/
theorem ReinitTaskWrapper.none_task_asymmetry :
    (∀ (Obs Kw : Type) (observation : Obs → Obs) (envReset : Nat → Kw → Obs)
        (s : ProxyState τ TS) (kw : Kw),
        ReinitTaskWrapper.reset observation envReset s none kw =
          ({ s with done := false },
            Except.ok (observation (envReset s.env kw)))) ∧
    (∀ (s : ProxyState τ TS) (e : Nat), s.done = true →
        dictLookup s.task_envs none = none →
        s.env_fn none s.fnCallLog.length = Except.ok e →
        ReinitTaskWrapper.change_task s none =
          ({ s with
              task_envs := dictInsert s.task_envs none e
              fnCallLog := s.fnCallLog ++ [none]
              env := e }, Except.ok ())) := by
  constructor
  · intro Obs Kw observation envReset s kw
    simp [ReinitTaskWrapper.reset]
  · intro s e hdone hmiss hfac
    exact change_task_cache_miss s none e hdone hmiss hfac

/-- C10 witness: `reset` with no task on a concrete state, and
`change_task(None)` on a concrete fresh proxy. -/
theorem ReinitTaskWrapper.none_task_asymmetry_witness :
    ReinitTaskWrapper.reset wObs wEnvReset wMid none 5 =
      ({ wMid with done := false },
        Except.ok (wObs (wEnvReset wMid.env 5))) ∧
    ReinitTaskWrapper.change_task wInit none =
      ({ wInit with
          task_envs := dictInsert wInit.task_envs none 100
          fnCallLog := wInit.fnCallLog ++ [none]
          env := 100 }, Except.ok ()) :=
  ⟨(@ReinitTaskWrapper.none_task_asymmetry ℤ Unit _).1 ℤ ℤ wObs wEnvReset wMid 5,
    (@ReinitTaskWrapper.none_task_asymmetry ℤ Unit _).2 wInit 100 rfl rfl rfl⟩

/-- C5: when a new task is supplied, `reset` invokes `change_task` on it
before anything else — a failure there propagates with no further effect —
and on success it sets the episode-in-progress flag (the episode counts as
active), delegates to the active environment's reset with the auxiliary
keyword arguments passed through unchanged, and applies the observation
transform to the delegated result before returning it. -/
theorem ReinitTaskWrapper.reset_behavior {Obs Kw : Type}
    (observation : Obs → Obs) (envReset : Nat → Kw → Obs)
    (s : ProxyState τ TS) (t : τ) (kw : Kw) :
    (∀ s1, ReinitTaskWrapper.change_task s (some t) = (s1, Except.ok ()) →
        ReinitTaskWrapper.reset observation envReset s (some t) kw =
          ({ s1 with done := false },
            Except.ok (observation (envReset s1.env kw)))) ∧
    (∀ s1 e, ReinitTaskWrapper.change_task s (some t) = (s1, Except.error e) →
        ReinitTaskWrapper.reset observation envReset s (some t) kw =
          (s1, Except.error e)) := by
  constructor
  · intro s1 h
    simp [ReinitTaskWrapper.reset, h]
  · intro s1 e h
    simp [ReinitTaskWrapper.reset, h]

/-- C5 witness: `reset(new_task=4)` on a concrete fresh proxy, and
`reset(new_task=4)` on a concrete mid-episode proxy. -/
theorem ReinitTaskWrapper.reset_behavior_witness :
    ReinitTaskWrapper.reset wObs wEnvReset wInit (some 4) 5 =
      ({ wAfter4 with done := false },
        Except.ok (wObs (wEnvReset wAfter4.env 5))) ∧
    ReinitTaskWrapper.reset wObs wEnvReset wMid (some 4) 5 =
      (wMid, Except.error (PyExn.runtimeError "Cannot change task mid-episode.")) :=
  ⟨(ReinitTaskWrapper.reset_behavior wObs wEnvReset wInit 4 5).1 wAfter4 rfl,
    (ReinitTaskWrapper.reset_behavior wObs wEnvReset wMid 4 5).2 wMid
      (PyExn.runtimeError "Cannot change task mid-episode.") rfl⟩

omit [DecidableEq τ] in
/-- C6: `step` delegates to the active environment's step; the proxy's
episode flag afterwards equals the delegated `done` (episode over exactly
when `done` is true); the value of the `_task_completion` hook at the
delegated `(obs, reward, done, info)` is attached to the returned info
mapping under the key "task_completion"; the observation transform is
applied to the returned observation; reward and done are passed through. -/
theorem ReinitTaskWrapper.step_behavior {Obs Act R V : Type}
    (observation : Obs → Obs)
    (envStep : Nat → Act → Obs × R × Bool × (String → Option V))
    (tc : Obs → R → Bool → (String → Option V) → V)
    (s : ProxyState τ TS) (a : Act) :
    (ReinitTaskWrapper.step observation envStep tc s a).1 =
      { s with done := (envStep s.env a).2.2.1 } ∧
    (ReinitTaskWrapper.step observation envStep tc s a).2.1 =
      observation (envStep s.env a).1 ∧
    (ReinitTaskWrapper.step observation envStep tc s a).2.2.1 =
      (envStep s.env a).2.1 ∧
    (ReinitTaskWrapper.step observation envStep tc s a).2.2.2.1 =
      (envStep s.env a).2.2.1 ∧
    (ReinitTaskWrapper.step observation envStep tc s a).2.2.2.2 "task_completion" =
      some (tc (envStep s.env a).1 (envStep s.env a).2.1 (envStep s.env a).2.2.1
        (envStep s.env a).2.2.2) := by
  rcases hes : envStep s.env a with ⟨obs, rew, dn, info⟩
  simp [ReinitTaskWrapper.step, hes, infoSet]

omit [DecidableEq τ] in
/-- C8: `step` performs no state-machine guard: from every proxy state —
the episode-ended state included — the call is forwarded to the active
environment without being rejected, and afterwards the episode flag equals
whatever `done` the underlying environment returned; in particular a `step`
from the episode-ended state whose underlying `done` is false moves the
proxy back to episode-active without an intervening `reset`. -/
theorem ReinitTaskWrapper.step_unguarded {Obs Act R V : Type}
    (observation : Obs → Obs)
    (envStep : Nat → Act → Obs × R × Bool × (String → Option V))
    (tc : Obs → R → Bool → (String → Option V) → V)
    (s : ProxyState τ TS) (a : Act) :
    ((ReinitTaskWrapper.step observation envStep tc s a).2.1 =
        observation (envStep s.env a).1 ∧
      (ReinitTaskWrapper.step observation envStep tc s a).1.done =
        (envStep s.env a).2.2.1) ∧
    (s.done = true → (envStep s.env a).2.2.1 = false →
      (ReinitTaskWrapper.step observation envStep tc s a).1.done = false) := by
  rcases hes : envStep s.env a with ⟨obs, rew, dn, info⟩
  refine ⟨⟨?_, ?_⟩, ?_⟩ <;> simp [ReinitTaskWrapper.step, hes]

/-- C8 witness: an episode-ended proxy stepped with an underlying `done` of
false becomes episode-active. -/
theorem ReinitTaskWrapper.step_unguarded_witness :
    ((ReinitTaskWrapper.step wObs wEnvStepLive wTC wInit 2).2.1 =
        wObs (wEnvStepLive wInit.env 2).1 ∧
      (ReinitTaskWrapper.step wObs wEnvStepLive wTC wInit 2).1.done =
        (wEnvStepLive wInit.env 2).2.2.1) ∧
    (ReinitTaskWrapper.step wObs wEnvStepLive wTC wInit 2).1.done = false :=
  ⟨(ReinitTaskWrapper.step_unguarded wObs wEnvStepLive wTC wInit 2).1,
    (ReinitTaskWrapper.step_unguarded wObs wEnvStepLive wTC wInit 2).2 rfl rfl⟩

/-- C9: frame — `step` leaves the task cache, the active environment
reference, the factory, the task space and the factory log unchanged (of the
proxy's own fields only the episode flag may change); `reset` with no new
task changes exactly the episode flag; and `change_task`, the only operation
that mutates the cache, adds at most one cache entry per call. -/
theorem ReinitTaskWrapper.frame_conditions {Obs Act R V Kw : Type}
    (observation : Obs → Obs)
    (envStep : Nat → Act → Obs × R × Bool × (String → Option V))
    (tc : Obs → R → Bool → (String → Option V) → V)
    (envReset : Nat → Kw → Obs)
    (s : ProxyState τ TS) (a : Act) (kw : Kw) :
    ((ReinitTaskWrapper.step observation envStep tc s a).1.task_envs =
        s.task_envs ∧
      (ReinitTaskWrapper.step observation envStep tc s a).1.env = s.env ∧
      (ReinitTaskWrapper.step observation envStep tc s a).1.env_fn = s.env_fn ∧
      (ReinitTaskWrapper.step observation envStep tc s a).1.task_space =
        s.task_space ∧
      (ReinitTaskWrapper.step observation envStep tc s a).1.fnCallLog =
        s.fnCallLog) ∧
    (ReinitTaskWrapper.reset observation envReset s none kw).1 =
      { s with done := false } ∧
    (∀ k, (ReinitTaskWrapper.change_task s k).1.task_envs.length ≤
      s.task_envs.length + 1) := by
  refine ⟨?_, ?_, ?_⟩
  · rcases hes : envStep s.env a with ⟨obs, rew, dn, info⟩
    simp [ReinitTaskWrapper.step, hes]
  · simp [ReinitTaskWrapper.reset]
  · intro k
    cases hd : s.done with
    | false => rw [change_task_not_done s k hd]; exact Nat.le_succ _
    | true =>
        cases hv : dictLookup s.task_envs k with
        | some v => rw [change_task_cache_hit s k v hd hv]; exact Nat.le_succ _
        | none =>
            cases hf : s.env_fn k s.fnCallLog.length with
            | error e =>
                rw [change_task_factory_err s k e hd hv hf]
                exact Nat.le_succ _
            | ok e =>
                rw [change_task_cache_miss s k e hd hv hf]
                exact dictInsert_length s.task_envs k e

/-- C4: `change_task` is legal whenever the proxy is in the episode-ended
state: (i) on a freshly constructed proxy, before any `reset`, a task change
succeeds (given the factory returns normally), and (ii) immediately after a
`step` whose underlying `done` is true, a `reset(new_task)` succeeds for any
task — cached, or uncached with a normally returning factory — including
tasks different from the prior one. -/
theorem ReinitTaskWrapper.change_task_legal_when_episode_ended :
    (∀ (e0 : Nat) (fn : Option τ → Nat → Except PyExn Nat) (ts : Option TS)
        (k : Option τ) (e : Nat), fn k 0 = Except.ok e →
        (ReinitTaskWrapper.change_task (ReinitTaskWrapper.init e0 fn ts) k).2 =
          Except.ok ()) ∧
    (∀ (Obs Act R V Kw : Type) (observation : Obs → Obs)
        (envStep : Nat → Act → Obs × R × Bool × (String → Option V))
        (tc : Obs → R → Bool → (String → Option V) → V)
        (envReset : Nat → Kw → Obs) (s : ProxyState τ TS) (a : Act) (tp : τ)
        (kw : Kw),
        (envStep s.env a).2.2.1 = true →
        ((∃ v, dictLookup s.task_envs (some tp) = some v) ∨
          (∃ e, s.env_fn (some tp) s.fnCallLog.length = Except.ok e)) →
        ∃ s2 o,
          ReinitTaskWrapper.reset observation envReset
              (ReinitTaskWrapper.step observation envStep tc s a).1 (some tp) kw =
            (s2, Except.ok o)) := by
  constructor
  · intro e0 fn ts k e hfac
    rw [change_task_cache_miss (ReinitTaskWrapper.init e0 fn ts) k e rfl rfl hfac]
  · intro Obs Act R V Kw observation envStep tc envReset s a tp kw hterm hfac
    rcases hes : envStep s.env a with ⟨obs, rew, dn, info⟩
    rw [hes] at hterm
    simp only at hterm
    subst hterm
    have hs1 : (ReinitTaskWrapper.step observation envStep tc s a).1 =
        { s with done := true } := by
      simp [ReinitTaskWrapper.step, hes]
    rw [hs1]
    have hcase :
        ∃ s1, ReinitTaskWrapper.change_task { s with done := true } (some tp) =
          (s1, Except.ok ()) := by
      rcases hv : dictLookup s.task_envs (some tp) with - | v
      · rcases hfac with ⟨v, hv2⟩ | ⟨e, he⟩
        · exact absurd (hv ▸ hv2) (by simp)
        · exact ⟨_, change_task_cache_miss { s with done := true } (some tp) e
            rfl hv he⟩
      · exact ⟨_, change_task_cache_hit { s with done := true } (some tp) v
          rfl hv⟩
    obtain ⟨s1, hct⟩ := hcase
    refine ⟨{ s1 with done := false },
      observation (envReset s1.env kw), ?_⟩
    simp [ReinitTaskWrapper.reset, hct]

/-- C4 witness: a task change on a fresh proxy, and a reset to a new task
right after a terminal step, at concrete inputs. -/
theorem ReinitTaskWrapper.change_task_legal_when_episode_ended_witness :
    (ReinitTaskWrapper.change_task (ReinitTaskWrapper.init 0 wFn
      (none : Option Unit)) (some 4)).2 = Except.ok () ∧
    (∃ s2 o, ReinitTaskWrapper.reset wObs wEnvReset
        (ReinitTaskWrapper.step wObs wEnvStep wTC wInit 2).1 (some 9) 5 =
      (s2, Except.ok o)) :=
  ⟨(@ReinitTaskWrapper.change_task_legal_when_episode_ended ℤ Unit _).1
      0 wFn none (some 4) 100 rfl,
    (@ReinitTaskWrapper.change_task_legal_when_episode_ended ℤ Unit _).2
      ℤ ℤ ℤ ℤ ℤ wObs wEnvStep wTC wEnvReset wInit 2 9 5 rfl
      (Or.inr ⟨100, rfl⟩)⟩

/-- C3: invariant preserved by construction, `reset`, `change_task` and
`step`: in every reachable proxy state the active environment reference is
either the instance supplied at construction or an instance stored in the
task cache. -/
theorem ReinitTaskWrapper.active_env_invariant
    (e0 : Nat) (fn : Option τ → Nat → Except PyExn Nat) (ts : Option TS)
    (s : ProxyState τ TS) (h : Reachable e0 fn ts s) : activeOk e0 s := by
  induction h with
  | init => exact Or.inl rfl
  | change_task s k hr ih => exact activeOk_change_task e0 s k ih
  | reset observation envReset s nt kw hr ih =>
      cases nt with
      | none => simpa [ReinitTaskWrapper.reset, activeOk] using ih
      | some t =>
          have hpres := activeOk_change_task e0 s (some t) ih
          rcases hct : ReinitTaskWrapper.change_task s (some t) with ⟨s1, r⟩
          rw [hct] at hpres
          cases r with
          | ok u =>
              cases u
              simpa [ReinitTaskWrapper.reset, hct, activeOk] using hpres
          | error e =>
              simpa [ReinitTaskWrapper.reset, hct, activeOk] using hpres
  | step observation envStep tc s a hr ih =>
      rcases hes : envStep s.env a with ⟨obs, rew, dn, info⟩
      simpa [ReinitTaskWrapper.step, hes, activeOk] using ih

/-- C3 witness: the invariant at the concrete state a fresh proxy reaches
after one `change_task`. -/
theorem ReinitTaskWrapper.active_env_invariant_witness :
    activeOk 0 (ReinitTaskWrapper.change_task wInit (some 4)).1 :=
  ReinitTaskWrapper.active_env_invariant 0 wFn none _
    (Reachable.change_task wInit (some 4)
      (show Reachable 0 wFn (none : Option Unit) wInit from Reachable.init))

end Claims
